import Mathlib

/-!
Verification of the LexiconFlow App Store asset scripts.

Shallow embedding of the four Python pipelines:
  * scripts/validate_app_store_assets.py  (icon / screenshot / video validator)
  * scripts/generate-icon-variants.py     (icon variant generator)
  * scripts/.worktrees variant generate-icon-variants.py
  * scripts/process_screenshots.py        (screenshot post-processor)
  * scripts/create-glass-morphism-icon.py (procedural icon composer)

Images are modelled by their canvas metadata (width, height, colour mode);
PIL primitives (resize, alpha_composite, convert, paste, GaussianBlur) are
embedded with their documented effect on that metadata.  File systems are
modelled as explicit listings / lookup functions.  Machine floats appear
only in `file_size_mb = bytes / (1024*1024) > 0.5`, which is exact for
binary floating point (division by a power of two), hence modelled as the
integer comparison `bytes > 524288`.
-/

namespace LexiconFlow

/-- PIL colour modes used by the scripts. -/
inductive PMode
  | RGB
  | RGBA
  | L
deriving DecidableEq

/-- An in-memory bitmap, abstracted to its canvas metadata. -/
structure Img where
  width : Nat
  height : Nat
  mode : PMode
deriving DecidableEq

/-- Python `str.endswith(pat)`, modelled on character lists. -/
def strEndsWith (s pat : String) : Bool :=
  List.isSuffixOf pat.toList s.toList

/-- PIL `Image.resize((w, h), LANCZOS)`: the result has exactly the requested size. -/
def resize (i : Img) (w h : Nat) : Img :=
  { width := w, height := h, mode := i.mode }

/-- PIL `img.convert(m)`: changes the colour mode, keeps the canvas. -/
def convert (i : Img) (m : PMode) : Img :=
  { i with mode := m }

/-- PIL `Image.alpha_composite(a, b)` (both RGBA, equal sizes in all call
sites of this repository): returns an RGBA image on the first canvas. -/
def alphaComposite (a b : Img) : Img :=
  { width := a.width, height := a.height, mode := PMode.RGBA }

/-- PIL `ImageFilter.GaussianBlur`: blurs pixel content, keeps canvas and mode. -/
def gaussianBlur (i : Img) : Img := i

/-- An RGB colour. -/
def Color := Nat × Nat × Nat
deriving DecidableEq

/-- PIL `Image.new(mode, (w, h), color)`. -/
def newImg (m : PMode) (w h : Nat) : Img :=
  { width := w, height := h, mode := m }

/-- PIL `base.paste(src, mask=...)`: mutates pixel content of `base`;
the canvas and mode of `base` are unchanged. -/
def pasteOnto (base src : Img) : Img := base


/-! ## validate_app_store_assets.py -/

/-- `ICON_SPECS` from validate_app_store_assets.py. -/
structure IconSpecs where
  size : Nat × Nat
  format : String
  maxSizeBytes : Nat
  noAlpha : Bool

/-- `ICON_SPECS = {"size": (1024, 1024), "format": "PNG", "max_size_mb": 0.5, "no_alpha": True}`
(0.5 MB = 524288 bytes; the float comparison is exact). -/
def ICON_SPECS : IconSpecs :=
  { size := (1024, 1024), format := "PNG", maxSizeBytes := 524288, noAlpha := true }

/-- What `Image.open` + `os.path.getsize` observe about an icon file. -/
structure IconFileInfo where
  width : Nat
  height : Nat
  format : String
  mode : PMode
  sizeBytes : Nat
deriving DecidableEq

/-- Hard errors collected by `validate_icon` (tags of the printed messages). -/
inductive IconError
  | wrongSize (w h : Nat)
  | wrongFormat (f : String)
  | tooLarge (bytes : Nat)
deriving DecidableEq

/-- Warnings collected by `validate_icon`. -/
inductive IconWarning
  | alphaChannel
deriving DecidableEq

/-- Result of `validate_icon`: the returned boolean plus the messages printed. -/
structure IconResult where
  passed : Bool
  errors : List IconError
  warnings : List IconWarning
deriving DecidableEq

/-- `validate_icon(icon_path)`.  Input: `none` when the file does not exist,
`some none` when `Image.open`/`getsize` raises, `some (some info)` otherwise. -/
def validate_icon (file : Option (Option IconFileInfo)) : IconResult :=
  match file with
  | none => { passed := false, errors := [], warnings := [] }
  | some none => { passed := false, errors := [], warnings := [] }
  | some (some i) =>
    let errors :=
      (if i.width ≠ ICON_SPECS.size.1 ∨ i.height ≠ ICON_SPECS.size.2 then
        [IconError.wrongSize i.width i.height] else []) ++
      (if i.format ≠ ICON_SPECS.format then [IconError.wrongFormat i.format] else []) ++
      (if i.sizeBytes > ICON_SPECS.maxSizeBytes then [IconError.tooLarge i.sizeBytes] else [])
    let warnings :=
      if i.mode = PMode.RGBA ∧ ICON_SPECS.noAlpha then [IconWarning.alphaChannel] else []
    { passed := errors.isEmpty, errors := errors, warnings := warnings }

/-- The device identifiers of `SCREENSHOT_SPECS` (dict keys, in insertion order). -/
inductive Device
  | iphone_se
  | iphone_15
  | iphone_15_pro_max
  | ipad
deriving DecidableEq

/-- One entry of `SCREENSHOT_SPECS`: required exact size and minimum count. -/
structure ScreenshotSpec where
  w : Nat
  h : Nat
  count : Nat
deriving DecidableEq

/-- `SCREENSHOT_SPECS` from validate_app_store_assets.py. -/
def SCREENSHOT_SPECS : Device → ScreenshotSpec
  | Device.iphone_se => { w := 750, h := 1334, count := 6 }
  | Device.iphone_15 => { w := 1179, h := 2556, count := 6 }
  | Device.iphone_15_pro_max => { w := 1290, h := 2796, count := 6 }
  | Device.ipad => { w := 1640, h := 2360, count := 6 }

/-- Iteration order of `for device, specs in SCREENSHOT_SPECS.items()`. -/
def deviceList : List Device :=
  [Device.iphone_se, Device.iphone_15, Device.iphone_15_pro_max, Device.ipad]

/-- An entry of a device directory: file name, and the dimensions `Image.open`
reports (`none` when opening the file raises). -/
structure FileEntry where
  name : String
  img : Option (Nat × Nat)
deriving DecidableEq

/-- The per-file dimension check inside the `for screenshot in screenshots` loop. -/
def checkFile (spec : ScreenshotSpec) (f : FileEntry) : Bool :=
  match f.img with
  | none => false
  | some (w, h) => w = spec.w && h = spec.h

/-- What one device iteration reports: its contribution to `all_passed`, and
the per-file dimension results printed (file name, passed). -/
structure DeviceResult where
  passed : Bool
  dimReports : List (String × Bool)
deriving DecidableEq

/-- One iteration of the device loop of `validate_screenshots`:
directory lookup, PNG filter, count check (with `continue` on a short count),
then the per-file dimension loop. -/
def validateDevice (spec : ScreenshotSpec) (dir : Option (List FileEntry)) : DeviceResult :=
  match dir with
  | none => { passed := false, dimReports := [] }
  | some files =>
    let screenshots := files.filter (fun f => strEndsWith f.name ".png")
    if screenshots.length < spec.count then
      { passed := false, dimReports := [] }
    else
      let reports := screenshots.map (fun f => (f.name, checkFile spec f))
      { passed := reports.all (fun r => r.2), dimReports := reports }

/-- `validate_screenshots(screenshots_dir)`: `outer` is `os.path.isdir(screenshots_dir)`,
`dirs d` is the listing of the device subdirectory (`none` when absent).
Returns the final `all_passed`. -/
def validate_screenshots (outer : Bool) (dirs : Device → Option (List FileEntry)) : Bool :=
  outer && deviceList.all (fun d => (validateDevice (SCREENSHOT_SPECS d) (dirs d)).passed)

/-- What `validate_video` observes: existence and byte size (`none` = missing). -/
def validate_video (file : Option Nat) : Bool :=
  match file with
  | none => false
  | some sizeBytes =>
    -- 50 MB ceiling; extension mismatch is only a warning
    decide (sizeBytes ≤ 50 * 1024 * 1024)

/-- Environment of `validate_all`: the three fixed asset paths.  Each asset is
validated only when `os.path.exists` holds, else recorded as failed. -/
structure ValidateAllEnv where
  icon : Option (Option IconFileInfo)
  screenshotsOuter : Bool
  screenshotDirs : Device → Option (List FileEntry)
  screenshotsExists : Bool
  video : Option Nat

/-- `validate_all()`: boolean AND across the three assets, returned as exit code. -/
def validate_all (e : ValidateAllEnv) : Nat :=
  let iconOk := match e.icon with
    | none => false
    | some f => (validate_icon (some f)).passed
  let shotOk := e.screenshotsExists && validate_screenshots e.screenshotsOuter e.screenshotDirs
  let videoOk := match e.video with
    | none => false
    | some v => validate_video (some v)
  if iconOk && shotOk && videoOk then 0 else 1

/-- The mutually exclusive argument branches of validate_app_store_assets.py `main`. -/
inductive VArgs
  | all (e : ValidateAllEnv)
  | icon (f : Option (Option IconFileInfo))
  | screenshots (outer : Bool) (dirs : Device → Option (List FileEntry))
  | video (f : Option Nat)
  | noArgs

/-- `main()` of validate_app_store_assets.py, as the process exit status. -/
def validator_main : VArgs → Nat
  | VArgs.all e => validate_all e
  | VArgs.icon f => if (validate_icon f).passed then 0 else 1
  | VArgs.screenshots outer dirs => if validate_screenshots outer dirs then 0 else 1
  | VArgs.video f => if validate_video f then 0 else 1
  | VArgs.noArgs => 1

/-! ## generate-icon-variants.py -/

/-- One entry of `IOS_ICON_SIZES`: (export_size, display_size, scale, filename). -/
structure SizeSpec where
  export_size : Nat
  display_size : Nat
  scale : Nat
  filename : String
deriving DecidableEq

/-- `IOS_ICON_SIZES` from generate-icon-variants.py. -/
def IOS_ICON_SIZES : List SizeSpec :=
  [ ⟨1024, 1024, 1, "app-icon-1024.png"⟩,
    ⟨512, 512, 1, "app-icon-512.png"⟩,
    ⟨256, 256, 1, "app-icon-256.png"⟩,
    ⟨128, 128, 1, "app-icon-128.png"⟩,
    ⟨128, 64, 2, "app-icon-64@2x.png"⟩,
    ⟨120, 60, 2, "app-icon-60@2x.png"⟩,
    ⟨180, 60, 3, "app-icon-60@3x.png"⟩,
    ⟨80, 40, 2, "app-icon-40@2x.png"⟩,
    ⟨120, 40, 3, "app-icon-40@3x.png"⟩,
    ⟨58, 29, 2, "app-icon-29@2x.png"⟩,
    ⟨87, 29, 3, "app-icon-29@3x.png"⟩,
    ⟨40, 20, 2, "app-icon-20@2x.png"⟩,
    ⟨60, 20, 3, "app-icon-20@3x.png"⟩,
    ⟨16, 16, 1, "app-icon-16.png"⟩ ]

/-- `os.path.splitext` + suffix insertion, specialised to the `.png` names of
the size table (`name, ext = splitext(filename); filename = name + suffix + ext`). -/
def addSuffix (filename suffix : String) : String :=
  if suffix = "" then filename else (filename.dropRight 4) ++ suffix ++ ".png"

/-- `generate_variants(input_path, output_dir, suffix, quality)`: for each size
spec, resize the master with LANCZOS to (export_size, export_size) and save
under the (suffixed) filename.  Returns the written (filename, image) pairs. -/
def generate_variants (master : Img) (suffix : String) : List (String × Img) :=
  IOS_ICON_SIZES.map (fun s =>
    (addSuffix s.filename suffix, resize master s.export_size s.export_size))

/-- `validate_icons(output_dir)` of generate-icon-variants.py: every filename of
the size table must exist, open as an image, and have the expected square size.
`dir` maps a filename to what `Image.open` observes (`none` = missing file,
`some none` = unreadable). -/
def validate_icons (dir : String → Option (Option Img)) : Bool :=
  IOS_ICON_SIZES.all (fun s =>
    match dir s.filename with
    | none => false
    | some none => false
    | some (some img) => img.width = s.export_size && img.height = s.export_size)

/-- Argument flags of generate-icon-variants.py `main`. -/
structure GenArgs where
  updateContentsJson : Bool
  input : Option String
  validateFlag : Bool

/-- Environment observed by generate-icon-variants.py `main`. -/
structure GenEnv where
  /-- `os.path.isdir(args.output)` for the --update-contents-json branch. -/
  outputDirExists : Bool
  /-- whether `generate_variants` raises (missing input, undecodable master,
  declined size-mismatch prompt) -/
  generateRaises : Bool
  /-- listing of the output directory, as read back by `validate_icons` -/
  outputFiles : String → Option (Option Img)

/-- `main()` of generate-icon-variants.py, as the process exit status.
After a successful generation the `--validate` flag runs `validate_icons` but
its boolean result is discarded (`if args.validate: validate_icons(args.output)`),
so the function then falls through to the success prints and exit 0. -/
def gen_icon_variants_main (a : GenArgs) (e : GenEnv) : Nat :=
  if a.updateContentsJson then
    if e.outputDirExists then 0 else 1
  else if a.input.isNone then 1
  else if e.generateRaises then 1
  else
    let _ := if a.validateFlag then validate_icons e.outputFiles else true
    0


/-! ## .worktrees/007-app-store-assets-creation/scripts/generate-icon-variants.py -/

/-- `ICON_SIZES` of the worktree variant generator. -/
def ICON_SIZES_WT : List Nat :=
  [16, 29, 32, 40, 58, 60, 76, 80, 87, 120, 152, 167, 180, 1024]

/-- The alpha-removal step of the worktree script: paste onto a white RGB background
(or plain convert); the canvas keeps the dimensions of the master. -/
def toRGBMaster (m : Img) : Img :=
  match m.mode with
  | PMode.RGBA => pasteOnto (newImg PMode.RGB m.width m.height) m
  | PMode.L => pasteOnto (newImg PMode.RGB m.width m.height) m
  | PMode.RGB => m

/-- `generate_icon_variants(master_path, output_dir)` of the worktree script:
size 1024 copies the (RGB-converted) master directly, the other sizes are
LANCZOS resizes.  Returns the written (size, image) pairs. -/
def generate_icon_variants (master : Img) : List (Nat × Img) :=
  let masterRGB := toRGBMaster master
  ICON_SIZES_WT.map (fun size =>
    if size = 1024 then (size, masterRGB)
    else (size, resize masterRGB size size))


/-! ## process_screenshots.py -/

/-- One entry of `DEVICE_SPECS`. -/
structure PDeviceSpec where
  name : String
  screen_w : Nat
  screen_h : Nat
  export_w : Nat
  export_h : Nat
  scale : Nat
deriving DecidableEq

/-- `DEVICE_SPECS` from process_screenshots.py. -/
def DEVICE_SPECS : Device → PDeviceSpec
  | Device.iphone_se => ⟨"iPhone SE", 375, 667, 750, 1334, 2⟩
  | Device.iphone_15 => ⟨"iPhone 15", 393, 852, 1179, 2556, 3⟩
  | Device.iphone_15_pro_max => ⟨"iPhone 15 Pro Max", 430, 932, 1290, 2796, 3⟩
  | Device.ipad => ⟨"iPad (10th Gen)", 820, 1180, 1640, 2360, 2⟩

/-- `CAPTIONS` from process_screenshots.py (indices 1–6). -/
def CAPTIONS : Nat → String
  | 1 => "Tired of forgetting what you learn?"
  | 2 => "90% retention with FSRS v5 algorithm"
  | 3 => "Beautiful Liquid Glass interface"
  | 4 => "Flashcards, Quiz, and Writing modes"
  | 5 => "Smart scheduling optimizes study time"
  | 6 => "Start learning vocabulary today"
  | _ => ""

/-- The output-name `title` table of `batch_process` (indices 1–6). -/
def titleFor : Nat → String
  | 1 => "FORGET_LESS"
  | 2 => "FSRS_V5"
  | 3 => "LIQUID_GLASS"
  | 4 => "STUDY_MODES"
  | 5 => "SMART_SCHEDULING"
  | 6 => "START_LEARNING"
  | _ => ""

/-- Python `pat in s` substring test, on character lists. -/
def listHasInfix (pat : List Char) : List Char → Bool
  | [] => pat.isEmpty
  | c :: rest => pat.isPrefixOf (c :: rest) || listHasInfix pat rest

/-- `add_caption(img, text, device_name)`: builds an RGBA overlay on the input
canvas, draws the band and the text (pixel content only), alpha-composites it
onto the RGBA-converted input and converts back to RGB.  The geometry constants
follow the source; `int(height * 0.25)` is exact float arithmetic, `height / 4`. -/
def add_caption (img : Img) (text : String) (device_name : String) : Img :=
  let width := img.width
  let height := img.height
  let overlay := newImg PMode.RGBA width height
  let caption_height := height / 4
  let caption_y := height - caption_height
  let font_size := if listHasInfix "iPad".toList device_name.toList then 56 else 40
  -- rectangle fill and centred text drawing mutate overlay pixels only
  let _ := (caption_y, font_size, text)
  let result := alphaComposite (convert img PMode.RGBA) overlay
  convert result PMode.RGB

/-- `process_screenshot(input_path, output_path, caption_text, device_name)`:
load, optionally caption, save as PNG.  Returns the image written. -/
def process_screenshot (img : Img) (caption_text : Option String)
    (device_name : String) : Img :=
  match caption_text with
  | some t => add_caption img t device_name
  | none => img

/-- The input-pattern search of `batch_process` for index `i`:
first existing among `{i}.png`, `{i}_raw.png`, `screenshot_{i}.png`.
`lookup` maps a filename in the input directory to its decoded image. -/
def firstInput (lookup : String → Option Img) (i : Nat) : Option Img :=
  match lookup (toString i ++ ".png") with
  | some img => some img
  | none =>
    match lookup (toString i ++ "_raw.png") with
    | some img => some img
    | none => lookup ("screenshot_" ++ toString i ++ ".png")

/-- Output filename of `batch_process` for index `i`:
`f"{i}_{title}_{width}x{height}.png"` with (width, height) the export size. -/
def outputName (spec : PDeviceSpec) (i : Nat) : String :=
  toString i ++ "_" ++ titleFor i ++ "_" ++ toString spec.export_w ++ "x" ++
    toString spec.export_h ++ ".png"

/-- `batch_process(input_dir, output_dir, device_type, add_captions, add_frames)`
for a known device: for i in 1..6 locate an input, skip with a warning when
missing, else process and write.  Returns the written (filename, image) pairs. -/
def batch_process (lookup : String → Option Img) (device : Device)
    (add_captions : Bool) : List (String × Img) :=
  let spec := DEVICE_SPECS device
  (List.range' 1 6).filterMap (fun i =>
    match firstInput lookup i with
    | none => none
    | some img =>
      let caption_text := if add_captions then some (CAPTIONS i) else none
      some (outputName spec i, process_screenshot img caption_text spec.name))


/-! ## create-glass-morphism-icon.py -/

/-- Appearance modes of `create_app_icon`. -/
inductive IconMode
  | light
  | dark
deriving DecidableEq

/-- `bg_color = (255, 255, 255) if mode is light else (0, 0, 0)`. -/
def bg_color : IconMode → Color
  | IconMode.light => (255, 255, 255)
  | IconMode.dark => (0, 0, 0)

/-- `create_noise_texture(width, height, opacity)`: an L-mode noise bitmap of
the given size converted to RGBA with a uniform alpha. -/
def create_noise_texture (width height : Nat) : Img :=
  convert (newImg PMode.L width height) PMode.RGBA

/-- `create_gradient_color(size, ...)`: `Image.fromarray` of an
(height, width, 3) array, an RGB image of the given size. -/
def create_gradient_color (w h : Nat) : Img :=
  newImg PMode.RGB w h

/-- `create_fluid_L(size, gradient_img)`: polygon mask and gradient composite
on fresh RGBA canvases of the given size. -/
def create_fluid_L (w h : Nat) (gradient : Img) : Img :=
  let l_final := alphaComposite (newImg PMode.RGBA w h) (convert gradient PMode.RGBA)
  l_final

/-- `create_glass_card(size, blur_radius, opacity, border_opacity)`: rounded
rectangle drawn on an RGBA canvas of the given size, then Gaussian-blurred. -/
def create_glass_card (w h : Nat) : Img :=
  gaussianBlur (newImg PMode.RGBA w h)

/-- PIL `Image.new(mode, (w, h), color)` with an explicit fill colour
(the fill sets pixel content, not canvas metadata). -/
def newFilled (m : PMode) (w h : Nat) (c : Color) : Img :=
  { width := w, height := h, mode := m }

/-- `create_app_icon(mode, output_path)`: composite background, glass card,
fluid L and noise (back to front), then flatten onto a fresh RGB canvas filled
with the background colour of the mode.  Returns the image written. -/
def create_app_icon (mode : IconMode) : Img :=
  let w := 1024
  let h := 1024
  let background_rgba := convert (newFilled PMode.RGB w h (bg_color mode)) PMode.RGBA
  let glass_card := create_glass_card w h
  let gradient := create_gradient_color w h
  let fluid_l := create_fluid_L w h gradient
  let noise := create_noise_texture w h
  let icon := alphaComposite (alphaComposite (alphaComposite background_rgba glass_card) fluid_l) noise
  let icon_rgb := pasteOnto (newFilled PMode.RGB w h (bg_color mode)) icon
  icon_rgb

/-! ## Helper lemmas -/

/-- `validate_icon` passes exactly when all three hard rules hold. -/
lemma validate_icon_passed_iff (i : IconFileInfo) :
    (validate_icon (some (some i))).passed = true ↔
      (i.width = 1024 ∧ i.height = 1024 ∧ i.format = "PNG" ∧ i.sizeBytes ≤ 524288) := by
  by_cases hw : i.width = 1024 <;>
    by_cases hh : i.height = 1024 <;>
      by_cases hf : i.format = "PNG" <;>
        by_cases hs : 524288 < i.sizeBytes <;>
          simp [validate_icon, ICON_SPECS, hw, hh, hf, hs] <;>
            omega

/-! ## C4 -/

/-- C4: an icon file that exists with dimensions exactly 1024×1024, format PNG,
and size at most 0.5 MB passes `validate_icon`; violating exactly one of the
three rules, the other two held conforming, makes it fail. -/
theorem c4_validate_icon_single_rule_sensitivity (i : IconFileInfo) :
    (i.width = 1024 → i.height = 1024 → i.format = "PNG" → i.sizeBytes ≤ 524288 →
      (validate_icon (some (some i))).passed = true)
    ∧ (¬ (i.width = 1024 ∧ i.height = 1024) → i.format = "PNG" → i.sizeBytes ≤ 524288 →
      (validate_icon (some (some i))).passed = false)
    ∧ (i.width = 1024 → i.height = 1024 → i.format ≠ "PNG" → i.sizeBytes ≤ 524288 →
      (validate_icon (some (some i))).passed = false)
    ∧ (i.width = 1024 → i.height = 1024 → i.format = "PNG" → 524288 < i.sizeBytes →
      (validate_icon (some (some i))).passed = false) := by
  refine ⟨?_, ?_, ?_, ?_⟩
  · intro hw hh hf hs
    exact (validate_icon_passed_iff i).2 ⟨hw, hh, hf, hs⟩
  · intro hd _ _
    rw [Bool.eq_false_iff]
    intro h
    exact hd ⟨((validate_icon_passed_iff i).1 h).1, ((validate_icon_passed_iff i).1 h).2.1⟩
  · intro _ _ hf _
    rw [Bool.eq_false_iff]
    intro h
    exact hf ((validate_icon_passed_iff i).1 h).2.2.1
  · intro _ _ _ hs
    rw [Bool.eq_false_iff]
    intro h
    exact absurd ((validate_icon_passed_iff i).1 h).2.2.2 (Nat.not_le.2 hs)

/-- Witness for C4: a conforming 1024×1024 PNG of 100000 bytes passes, and each
single-rule mutant (900×900, JPEG, 600000 bytes) fails. -/
theorem c4_witness :
    (validate_icon (some (some ⟨1024, 1024, "PNG", PMode.RGB, 100000⟩))).passed = true
    ∧ (validate_icon (some (some ⟨900, 900, "PNG", PMode.RGB, 100000⟩))).passed = false
    ∧ (validate_icon (some (some ⟨1024, 1024, "JPEG", PMode.RGB, 100000⟩))).passed = false
    ∧ (validate_icon (some (some ⟨1024, 1024, "PNG", PMode.RGB, 600000⟩))).passed = false :=
  ⟨(c4_validate_icon_single_rule_sensitivity ⟨1024, 1024, "PNG", PMode.RGB, 100000⟩).1
      rfl rfl rfl (by decide),
   (c4_validate_icon_single_rule_sensitivity ⟨900, 900, "PNG", PMode.RGB, 100000⟩).2.1
      (by decide) rfl (by decide),
   (c4_validate_icon_single_rule_sensitivity ⟨1024, 1024, "JPEG", PMode.RGB, 100000⟩).2.2.1
      rfl rfl (by decide) (by decide),
   (c4_validate_icon_single_rule_sensitivity ⟨1024, 1024, "PNG", PMode.RGB, 600000⟩).2.2.2
      rfl rfl rfl (by decide)⟩

/-! ## C7 -/

/-- C7: a conforming icon carrying an alpha channel (RGBA mode) still passes
with the alpha channel reported as a warning; and the pass/fail outcome of
`validate_icon` never depends on the colour mode at all. -/
theorem c7_alpha_is_warning_only (i : IconFileInfo) :
    (i.width = 1024 → i.height = 1024 → i.format = "PNG" → i.sizeBytes ≤ 524288 →
      i.mode = PMode.RGBA →
      (validate_icon (some (some i))).passed = true ∧
      IconWarning.alphaChannel ∈ (validate_icon (some (some i))).warnings)
    ∧ (∀ m₁ m₂ : PMode,
      (validate_icon (some (some { i with mode := m₁ }))).passed =
      (validate_icon (some (some { i with mode := m₂ }))).passed) := by
  constructor
  · intro hw hh hf hs hm
    refine ⟨(validate_icon_passed_iff i).2 ⟨hw, hh, hf, hs⟩, ?_⟩
    simp [validate_icon, ICON_SPECS, hm]
  · intro m₁ m₂
    rfl

/-- Witness for C7: a conforming RGBA icon passes with the alpha warning, and
switching its mode between RGBA and RGB leaves the outcome unchanged. -/
theorem c7_witness :
    ((validate_icon (some (some ⟨1024, 1024, "PNG", PMode.RGBA, 100000⟩))).passed = true ∧
      IconWarning.alphaChannel ∈
        (validate_icon (some (some ⟨1024, 1024, "PNG", PMode.RGBA, 100000⟩))).warnings)
    ∧ (validate_icon (some (some (⟨1024, 1024, "PNG", PMode.RGBA, 100000⟩ : IconFileInfo)))).passed =
      (validate_icon (some (some (⟨1024, 1024, "PNG", PMode.RGB, 100000⟩ : IconFileInfo)))).passed :=
  ⟨(c7_alpha_is_warning_only ⟨1024, 1024, "PNG", PMode.RGBA, 100000⟩).1
      rfl rfl rfl (by decide) rfl,
   (c7_alpha_is_warning_only ⟨1024, 1024, "PNG", PMode.RGBA, 100000⟩).2 PMode.RGBA PMode.RGB⟩

/-! ## C8 -/

/-- C8: the caption overlay returns an image whose width and height equal the
width and height of the input image, for every input image and caption text. -/
theorem c8_add_caption_preserves_dimensions (img : Img) (text device_name : String) :
    (add_caption img text device_name).width = img.width ∧
    (add_caption img text device_name).height = img.height :=
  ⟨rfl, rfl⟩

/-! ## C9 -/

/-- C9: for each appearance mode the procedural composer yields an opaque
1024×1024 RGB bitmap, flattened onto the background colour of the mode, which is
white for light mode and black for dark mode. -/
theorem c9_create_app_icon_opaque_1024 (mode : IconMode) :
    (create_app_icon mode).width = 1024 ∧
    (create_app_icon mode).height = 1024 ∧
    (create_app_icon mode).mode = PMode.RGB ∧
    bg_color IconMode.light = (255, 255, 255) ∧
    bg_color IconMode.dark = (0, 0, 0) :=
  ⟨rfl, rfl, rfl, rfl, rfl⟩

/-! ## C5 -/

/-- The alpha-removal step of the worktree script keeps the width of the master. -/
lemma toRGBMaster_width (m : Img) : (toRGBMaster m).width = m.width := by
  cases hm : m.mode <;> simp [toRGBMaster, hm, pasteOnto, newImg]

/-- The alpha-removal step of the worktree script keeps the height of the master. -/
lemma toRGBMaster_height (m : Img) : (toRGBMaster m).height = m.height := by
  cases hm : m.mode <;> simp [toRGBMaster, hm, pasteOnto, newImg]

/-- C5: for a valid 1024×1024 master, every variant generated in one run has
exactly the target size S×S of its entry in the size table — in the main
generator (all entries of `IOS_ICON_SIZES`) and in the worktree generator
(all entries of `ICON_SIZES_WT`, including the copied 1024 master). -/
theorem c5_variants_have_exact_target_sizes (master : Img) (suffix : String)
    (hw : master.width = 1024) (hh : master.height = 1024) :
    List.Forall₂ (fun (s : SizeSpec) (out : String × Img) =>
        out.2.width = s.export_size ∧ out.2.height = s.export_size)
      IOS_ICON_SIZES (generate_variants master suffix)
    ∧ List.Forall₂ (fun (size : Nat) (out : Nat × Img) =>
        out.2.width = size ∧ out.2.height = size)
      ICON_SIZES_WT (generate_icon_variants master) := by
  constructor
  · unfold generate_variants
    rw [List.forall₂_map_right_iff, List.forall₂_same]
    intro s _
    exact ⟨rfl, rfl⟩
  · unfold generate_icon_variants
    rw [List.forall₂_map_right_iff, List.forall₂_same]
    intro size _
    by_cases h1024 : size = 1024
    · subst h1024
      simp [toRGBMaster_width, toRGBMaster_height, hw, hh]
    · simp [h1024, resize]

/-- Witness for C5: the generators applied to a concrete 1024×1024 RGB master. -/
theorem c5_witness :
    List.Forall₂ (fun (s : SizeSpec) (out : String × Img) =>
        out.2.width = s.export_size ∧ out.2.height = s.export_size)
      IOS_ICON_SIZES (generate_variants ⟨1024, 1024, PMode.RGB⟩ "")
    ∧ List.Forall₂ (fun (size : Nat) (out : Nat × Img) =>
        out.2.width = size ∧ out.2.height = size)
      ICON_SIZES_WT (generate_icon_variants ⟨1024, 1024, PMode.RGB⟩) :=
  c5_variants_have_exact_target_sizes ⟨1024, 1024, PMode.RGB⟩ "" rfl rfl

/-! ## C10 -/

/-- C10: a file whose name does not end in ".png" contributes neither to the
file count nor to the dimension checks of the device loop of `validate_screenshots`
(inserting it anywhere leaves the device result unchanged), and every file in
the dimension report has a ".png" name. -/
theorem c10_only_png_files_considered (spec : ScreenshotSpec) (l1 l2 : List FileEntry)
    (f : FileEntry) (files : List FileEntry)
    (hf : strEndsWith f.name ".png" = false) :
    validateDevice spec (some (l1 ++ f :: l2)) = validateDevice spec (some (l1 ++ l2))
    ∧ ((validateDevice spec (some files)).dimReports.all
        (fun r => strEndsWith r.1 ".png")) = true := by
  constructor
  · have hfil : List.filter (fun g => strEndsWith g.name ".png") (l1 ++ f :: l2)
              = List.filter (fun g => strEndsWith g.name ".png") (l1 ++ l2) := by
      simp [List.filter_append, List.filter_cons, hf]
    simp only [validateDevice, hfil]
  · simp only [validateDevice]
    split
    · rfl
    · rw [List.all_eq_true]
      intro r hr
      rw [List.mem_map] at hr
      obtain ⟨g, hg, rfl⟩ := hr
      exact (List.mem_filter.1 hg).2

/-- Witness for C10: a correctly-sized image stored as "shot.jpg" is ignored by
the iPad device check, and a concrete report list contains only ".png" names. -/
theorem c10_witness :
    validateDevice (SCREENSHOT_SPECS Device.ipad)
        (some ([] ++ (⟨"shot.jpg", some (1640, 2360)⟩ : FileEntry) :: []))
      = validateDevice (SCREENSHOT_SPECS Device.ipad) (some ([] ++ []))
    ∧ ((validateDevice (SCREENSHOT_SPECS Device.ipad)
          (some [⟨"a.png", some (1640, 2360)⟩])).dimReports.all
        (fun r => strEndsWith r.1 ".png")) = true :=
  c10_only_png_files_considered (SCREENSHOT_SPECS Device.ipad) [] []
    ⟨"shot.jpg", some (1640, 2360)⟩ [⟨"a.png", some (1640, 2360)⟩] (by decide)

/-- `all` of the second components of a mapped pair list. -/
lemma all_snd_map {α β : Type} (l : List α) (g : α → β) (p : α → Bool) :
    (l.map (fun x => (g x, p x))).all (fun r => r.2) = l.all p := by
  induction l with
  | nil => rfl
  | cons a t ih => simp [ih]

/-- On a short .png count the device iteration hits `continue`: failure, no
dimension reports. -/
lemma validateDevice_short (spec : ScreenshotSpec) (files : List FileEntry)
    (h : (files.filter (fun f => strEndsWith f.name ".png")).length < spec.count) :
    validateDevice spec (some files) = { passed := false, dimReports := [] } := by
  simp [validateDevice, h]

/-- On a sufficient .png count the device iteration checks every .png file. -/
lemma validateDevice_full (spec : ScreenshotSpec) (files : List FileEntry)
    (h : spec.count ≤ (files.filter (fun f => strEndsWith f.name ".png")).length) :
    validateDevice spec (some files) =
      { passed := (files.filter (fun f => strEndsWith f.name ".png")).all
          (fun f => checkFile spec f),
        dimReports := (files.filter (fun f => strEndsWith f.name ".png")).map
          (fun f => (f.name, checkFile spec f)) } := by
  simp only [validateDevice]
  rw [if_neg (Nat.not_lt.2 h)]
  rw [all_snd_map]

/-! ## C1 -/

/-- C1 (amended): when a device directory holds fewer .png files than the
required minimum, the device is reported as a failure and the loop continues
to the next device without dimension-checking the present files; only when
the count meets the minimum is a dimension pass/fail status reported for
every present .png file, with no early exit between files. -/
theorem c1_short_count_skips_dimension_checks (spec : ScreenshotSpec)
    (files : List FileEntry) :
    ((files.filter (fun f => strEndsWith f.name ".png")).length < spec.count →
      validateDevice spec (some files) = { passed := false, dimReports := [] })
    ∧ (spec.count ≤ (files.filter (fun f => strEndsWith f.name ".png")).length →
      (validateDevice spec (some files)).dimReports =
        (files.filter (fun f => strEndsWith f.name ".png")).map
          (fun f => (f.name, checkFile spec f)) ∧
      (validateDevice spec (some files)).passed =
        (files.filter (fun f => strEndsWith f.name ".png")).all
          (fun f => checkFile spec f)) := by
  constructor
  · intro h
    exact validateDevice_short spec files h
  · intro h
    rw [validateDevice_full spec files h]
    exact ⟨rfl, rfl⟩

/-- Four correctly-sized iPhone 15 screenshots, two short of the minimum. -/
def shortFiles : List FileEntry :=
  [⟨"1.png", some (1179, 2556)⟩, ⟨"2.png", some (1179, 2556)⟩,
   ⟨"3.png", some (1179, 2556)⟩, ⟨"4.png", some (1179, 2556)⟩]

/-- Counterexample to C1 as stated: with 4 of 6 required files present, all of
them .png files of exactly the required resolution, the validator reports the
failure but reports NO dimension status for any present file (the device loop
exits early via `continue` on the short count). -/
theorem c1_counterexample_short_count_no_reports :
    (shortFiles.filter (fun f => strEndsWith f.name ".png")).length = 4
    ∧ shortFiles.all (fun f => checkFile (SCREENSHOT_SPECS Device.iphone_15) f) = true
    ∧ (validateDevice (SCREENSHOT_SPECS Device.iphone_15) (some shortFiles)).passed = false
    ∧ (validateDevice (SCREENSHOT_SPECS Device.iphone_15) (some shortFiles)).dimReports
        = [] := by
  decide

/-- Six correctly-sized iPhone 15 screenshots, meeting the minimum. -/
def sixFiles : List FileEntry :=
  shortFiles ++ [⟨"5.png", some (1179, 2556)⟩, ⟨"6.png", some (1179, 2556)⟩]

/-- Witness for C1: both branches of the amended claim at concrete inputs —
the short state above, and a full six-file state where every file is reported. -/
theorem c1_witness :
    validateDevice (SCREENSHOT_SPECS Device.iphone_15) (some shortFiles)
      = { passed := false, dimReports := [] }
    ∧ ((validateDevice (SCREENSHOT_SPECS Device.iphone_15) (some sixFiles)).dimReports
        = (sixFiles.filter (fun f => strEndsWith f.name ".png")).map
          (fun f => (f.name, checkFile (SCREENSHOT_SPECS Device.iphone_15) f)) ∧
      (validateDevice (SCREENSHOT_SPECS Device.iphone_15) (some sixFiles)).passed
        = (sixFiles.filter (fun f => strEndsWith f.name ".png")).all
          (fun f => checkFile (SCREENSHOT_SPECS Device.iphone_15) f)) :=
  ⟨(c1_short_count_skips_dimension_checks (SCREENSHOT_SPECS Device.iphone_15) shortFiles).1
      (by decide),
   (c1_short_count_skips_dimension_checks (SCREENSHOT_SPECS Device.iphone_15) sixFiles).2
      (by decide)⟩

/-! ## C2 -/

/-- `process_screenshot` preserves the width of the input image. -/
lemma process_screenshot_width (img : Img) (c : Option String) (d : String) :
    (process_screenshot img c d).width = img.width := by
  cases c <;> rfl

/-- `process_screenshot` preserves the height of the input image. -/
lemma process_screenshot_height (img : Img) (c : Option String) (d : String) :
    (process_screenshot img c d).height = img.height := by
  cases c <;> rfl

/-- C2 (amended): every output the post-processor writes has the pixel
dimensions of the raw input screenshot it was located from — the pipeline
never resizes; the device export resolution appears only in the output
filename. -/
theorem c2_outputs_keep_input_dimensions (lookup : String → Option Img)
    (device : Device) (add_captions : Bool) (out : String × Img)
    (hmem : out ∈ batch_process lookup device add_captions) :
    ∃ i img, firstInput lookup i = some img ∧
      out.2.width = img.width ∧ out.2.height = img.height ∧
      out.1 = outputName (DEVICE_SPECS device) i := by
  unfold batch_process at hmem
  rw [List.mem_filterMap] at hmem
  obtain ⟨i, _, heq⟩ := hmem
  cases hfi : firstInput lookup i with
  | none => rw [hfi] at heq; exact absurd heq (by simp)
  | some img =>
    rw [hfi] at heq
    simp only [Option.some.injEq] at heq
    refine ⟨i, img, hfi, ?_, ?_, ?_⟩
    · rw [← heq]
      exact process_screenshot_width img _ _
    · rw [← heq]
      exact process_screenshot_height img _ _
    · rw [← heq]

/-- A raw input directory holding a single 100×100 screenshot named "1.png". -/
def tinyLookup : String → Option Img := fun s =>
  if s = "1.png" then some ⟨100, 100, PMode.RGB⟩ else none

/-- Counterexample to C2 as stated: for iphone_15 the written file is named
with the export resolution 1179×2556, but its image is still 100×100 — the
pipeline renamed, it did not resize to the export resolution of the device. -/
theorem c2_counterexample_no_resize :
    batch_process tinyLookup Device.iphone_15 true
      = [("1_FORGET_LESS_1179x2556.png", ⟨100, 100, PMode.RGB⟩)]
    ∧ ((100, 100) ≠
        ((DEVICE_SPECS Device.iphone_15).export_w, (DEVICE_SPECS Device.iphone_15).export_h)) := by
  refine ⟨?_, by decide⟩
  decide

/-- Witness for C2: the amended claim applied to the concrete one-file run. -/
theorem c2_witness :
    ∃ i img, firstInput tinyLookup i = some img ∧
      ("1_FORGET_LESS_1179x2556.png", (⟨100, 100, PMode.RGB⟩ : Img)).2.width = img.width ∧
      ("1_FORGET_LESS_1179x2556.png", (⟨100, 100, PMode.RGB⟩ : Img)).2.height = img.height ∧
      ("1_FORGET_LESS_1179x2556.png", (⟨100, 100, PMode.RGB⟩ : Img)).1
        = outputName (DEVICE_SPECS Device.iphone_15) i :=
  c2_outputs_keep_input_dimensions tinyLookup Device.iphone_15 true
    ("1_FORGET_LESS_1179x2556.png", ⟨100, 100, PMode.RGB⟩) (by decide)

/-! ## C3 -/

/-- C3 (amended): the exit status of the asset validator is 0 exactly when the
requested validation succeeds (1 otherwise); but the icon generator run with
its --validate toggle exits 0 whenever generation itself succeeds, regardless
of the validation outcome — the boolean returned by `validate_icons` is
discarded, so a failing post-generation validation does not make the process
exit non-zero. -/
theorem c3_exit_codes (st : Option (Option IconFileInfo)) (outer : Bool)
    (dirs : Device → Option (List FileEntry)) (vf : Option Nat)
    (a : GenArgs) (e : GenEnv)
    (hjson : a.updateContentsJson = false) (hinput : a.input.isNone = false)
    (hraise : e.generateRaises = false) :
    (validator_main (VArgs.icon st) = 0 ↔ (validate_icon st).passed = true)
    ∧ (validator_main (VArgs.screenshots outer dirs) = 0 ↔
        validate_screenshots outer dirs = true)
    ∧ (validator_main (VArgs.video vf) = 0 ↔ validate_video vf = true)
    ∧ gen_icon_variants_main a e = 0 := by
  refine ⟨?_, ?_, ?_, ?_⟩
  · simp only [validator_main]
    cases (validate_icon st).passed <;> simp
  · simp only [validator_main]
    cases validate_screenshots outer dirs <;> simp
  · simp only [validator_main]
    cases validate_video vf <;> simp
  · simp [gen_icon_variants_main, hjson, hinput, hraise]

/-- An empty output directory: every required icon variant is missing. -/
def emptyOutputDir : String → Option (Option Img) := fun _ => none

/-- Counterexample to C3 as stated: the icon generator run with the
post-generation validation toggle, in a state where every generated icon fails
validation (`validate_icons` returns false), still exits 0 — not non-zero. -/
theorem c3_counterexample_validate_ignored :
    validate_icons emptyOutputDir = false
    ∧ gen_icon_variants_main
        { updateContentsJson := false, input := some "app-icon.png", validateFlag := true }
        { outputDirExists := true, generateRaises := false, outputFiles := emptyOutputDir }
      = 0 := by
  exact ⟨rfl, rfl⟩

/-- Witness for C3: the exit-code characterisations at concrete inputs — a
missing icon file (validator exits 1), and the concrete generator run above. -/
theorem c3_witness :
    (validator_main (VArgs.icon (none : Option (Option IconFileInfo))) = 0 ↔
      (validate_icon (none : Option (Option IconFileInfo))).passed = true)
    ∧ (validator_main (VArgs.screenshots false (fun _ => none)) = 0 ↔
        validate_screenshots false (fun _ => none) = true)
    ∧ (validator_main (VArgs.video (some 1000)) = 0 ↔ validate_video (some 1000) = true)
    ∧ gen_icon_variants_main
        { updateContentsJson := false, input := some "app-icon.png", validateFlag := true }
        { outputDirExists := true, generateRaises := false, outputFiles := emptyOutputDir }
      = 0 :=
  c3_exit_codes none false (fun _ => none) (some 1000)
    { updateContentsJson := false, input := some "app-icon.png", validateFlag := true }
    { outputDirExists := true, generateRaises := false, outputFiles := emptyOutputDir }
    rfl rfl rfl

/-! ## C6 -/

/-- Characterisation of a passing device check: the .png count meets the
minimum and every .png file has the exact required dimensions. -/
lemma validateDevice_passed_iff (spec : ScreenshotSpec) (files : List FileEntry) :
    (validateDevice spec (some files)).passed = true ↔
      (spec.count ≤ (files.filter (fun f => strEndsWith f.name ".png")).length ∧
        ∀ f ∈ files.filter (fun f => strEndsWith f.name ".png"),
          checkFile spec f = true) := by
  by_cases h : (files.filter (fun f => strEndsWith f.name ".png")).length < spec.count
  · rw [validateDevice_short spec files h]
    simp only [Bool.false_eq_true, false_iff, not_and]
    intro hle
    exact absurd h (Nat.not_lt.2 hle)
  · have hle := Nat.not_lt.1 h
    rw [validateDevice_full spec files hle]
    simp only [List.all_eq_true]
    constructor
    · intro hall
      exact ⟨hle, hall⟩
    · rintro ⟨_, hall⟩
      exact hall

/-- A file with the exact required dimensions satisfies the per-file check. -/
lemma checkFile_of_dims (spec : ScreenshotSpec) (f : FileEntry)
    (h : f.img = some (spec.w, spec.h)) : checkFile spec f = true := by
  simp [checkFile, h]

/-- Inserting a file of the exact required resolution of the device anywhere in a
directory on which the device check passes keeps the device check passing. -/
lemma add_good_file_device (spec : ScreenshotSpec) (l1 l2 : List FileEntry)
    (f : FileEntry) (hdims : f.img = some (spec.w, spec.h))
    (hpass : (validateDevice spec (some (l1 ++ l2))).passed = true) :
    (validateDevice spec (some (l1 ++ f :: l2))).passed = true := by
  rw [validateDevice_passed_iff] at hpass ⊢
  obtain ⟨hcount, hall⟩ := hpass
  by_cases hp : strEndsWith f.name ".png" = true
  · have hfil : (l1 ++ f :: l2).filter (fun g => strEndsWith g.name ".png")
        = l1.filter (fun g => strEndsWith g.name ".png") ++
          f :: l2.filter (fun g => strEndsWith g.name ".png") := by
      simp [List.filter_append, List.filter_cons, hp]
    rw [hfil]
    constructor
    · rw [List.filter_append] at hcount
      simp only [List.length_append, List.length_cons]
      simp only [List.length_append] at hcount
      omega
    · intro g hg
      rw [List.mem_append, List.mem_cons] at hg
      rcases hg with hg | hg | hg
      · exact hall g (by rw [List.filter_append, List.mem_append]; exact Or.inl hg)
      · exact hg ▸ checkFile_of_dims spec f hdims
      · exact hall g (by rw [List.filter_append, List.mem_append]; exact Or.inr hg)
  · have hfil : (l1 ++ f :: l2).filter (fun g => strEndsWith g.name ".png")
        = (l1 ++ l2).filter (fun g => strEndsWith g.name ".png") := by
      simp [List.filter_append, List.filter_cons, Bool.eq_false_iff.2 hp]
    rw [hfil]
    exact ⟨hcount, hall⟩

/-- Every device identifier is iterated by the device loop. -/
lemma mem_deviceList (d : Device) : d ∈ deviceList := by
  cases d <;> simp [deviceList]

/-- `validate_screenshots` passes exactly when the outer directory exists and
the check of every device passes. -/
lemma validate_screenshots_eq_true_iff (outer : Bool)
    (dirs : Device → Option (List FileEntry)) :
    validate_screenshots outer dirs = true ↔
      (outer = true ∧ ∀ d : Device,
        (validateDevice (SCREENSHOT_SPECS d) (dirs d)).passed = true) := by
  simp only [validate_screenshots, Bool.and_eq_true, List.all_eq_true]
  constructor
  · rintro ⟨ho, hd⟩
    exact ⟨ho, fun d => hd d (mem_deviceList d)⟩
  · rintro ⟨ho, hd⟩
    exact ⟨ho, fun d _ => hd d⟩

/-- C6: the screenshot validation result is monotonic in file presence.
Adding one more file of exactly the required resolution of the device to a passing
state keeps it passing; removing a file of the required resolution (a .png of
the exact required size) from a failing state keeps it failing. -/
theorem c6_screenshot_validation_monotonic :
    (∀ (outer : Bool) (dirs : Device → Option (List FileEntry)) (d : Device)
        (l1 l2 : List FileEntry) (f : FileEntry),
      dirs d = some (l1 ++ l2) →
      f.img = some ((SCREENSHOT_SPECS d).w, (SCREENSHOT_SPECS d).h) →
      validate_screenshots outer dirs = true →
      validate_screenshots outer (Function.update dirs d (some (l1 ++ f :: l2))) = true)
    ∧ (∀ (outer : Bool) (dirs : Device → Option (List FileEntry)) (d : Device)
        (l1 l2 : List FileEntry) (f : FileEntry),
      dirs d = some (l1 ++ f :: l2) →
      strEndsWith f.name ".png" = true →
      f.img = some ((SCREENSHOT_SPECS d).w, (SCREENSHOT_SPECS d).h) →
      validate_screenshots outer dirs = false →
      validate_screenshots outer (Function.update dirs d (some (l1 ++ l2))) = false) := by
  have hadd : ∀ (outer : Bool) (dirs : Device → Option (List FileEntry)) (d : Device)
      (l1 l2 : List FileEntry) (f : FileEntry),
      dirs d = some (l1 ++ l2) →
      f.img = some ((SCREENSHOT_SPECS d).w, (SCREENSHOT_SPECS d).h) →
      validate_screenshots outer dirs = true →
      validate_screenshots outer (Function.update dirs d (some (l1 ++ f :: l2))) = true := by
    intro outer dirs d l1 l2 f hdirs hdims hpass
    rw [validate_screenshots_eq_true_iff] at hpass ⊢
    obtain ⟨ho, hd⟩ := hpass
    refine ⟨ho, ?_⟩
    intro dev
    by_cases hde : dev = d
    · subst hde
      rw [Function.update_same]
      exact add_good_file_device _ l1 l2 f hdims (hdirs ▸ hd dev)
    · rw [Function.update_noteq hde]
      exact hd dev
  refine ⟨hadd, ?_⟩
  intro outer dirs d l1 l2 f hdirs hpng hdims hfail
  by_contra hc
  have hpass : validate_screenshots outer
      (Function.update dirs d (some (l1 ++ l2))) = true := by
    cases hval : validate_screenshots outer (Function.update dirs d (some (l1 ++ l2)))
    · exact absurd hval hc
    · rfl
  have hstep := hadd outer (Function.update dirs d (some (l1 ++ l2))) d l1 l2 f
    (Function.update_same d (some (l1 ++ l2)) dirs) hdims hpass
  rw [Function.update_idem] at hstep
  rw [← hdirs, Function.update_eq_self] at hstep
  rw [hstep] at hfail
  exact absurd hfail (by simp)

/-- A fully conforming screenshot tree: each device directory holds six .png
files of exactly the required resolution of that device. -/
def goodDirs : Device → Option (List FileEntry) := fun d =>
  some ((List.range 6).map
    (fun i => ⟨toString i ++ ".png", some ((SCREENSHOT_SPECS d).w, (SCREENSHOT_SPECS d).h)⟩))

/-- Six conforming iPad screenshots. -/
def ipadSix : List FileEntry :=
  (List.range 6).map (fun i => ⟨toString i ++ ".png", some (1640, 2360)⟩)

/-- One more .png of exactly the iPad required resolution. -/
def extraGood : FileEntry := ⟨"extra.png", some (1640, 2360)⟩

/-- A wrongly-sized .png screenshot. -/
def badFile : FileEntry := ⟨"bad.png", some (10, 10)⟩

/-- A failing screenshot tree: the iPad directory holds seven .png files, one
of them wrongly sized. -/
def failDirs : Device → Option (List FileEntry) :=
  Function.update goodDirs Device.ipad (some ([badFile] ++ extraGood :: ipadSix))

/-- Witness for C6: adding a conforming iPad file to a concrete passing tree
keeps it passing; removing a conforming file from a concrete failing tree
keeps it failing. -/
theorem c6_witness :
    validate_screenshots true
        (Function.update goodDirs Device.ipad (some ([] ++ extraGood :: ipadSix))) = true
    ∧ validate_screenshots true
        (Function.update failDirs Device.ipad (some ([badFile] ++ ipadSix))) = false :=
  ⟨c6_screenshot_validation_monotonic.1 true goodDirs Device.ipad [] ipadSix extraGood
      (by decide) rfl (by decide),
   c6_screenshot_validation_monotonic.2 true failDirs Device.ipad [badFile] ipadSix extraGood
      (by decide) (by decide) rfl (by decide)⟩

end LexiconFlow
